import Mathlib

/-!
Verification development for the `document-service` repository: a shallow
embedding of the `SaveUtil` Luau module (assertStorable, budget-gated retry
wrappers, uuid) together with models of the components only declared in the
repository (the Retry executor, the migration pipeline, the session-lock
protocol and the Document close path), and theorems settling the spec's
claims against them.
-/

namespace DocumentService

/-! ## Luau value model for `SaveUtil.assertStorable` (src/unnamed/part_003:136-191)

Luau runtime values as the storability check distinguishes them: numbers
(finite, NaN, ±infinity), strings (with a flag recording whether `utf8.len`
succeeds), tables (with a metatable flag and an entry list in iteration
order), plus the unstorable scalar kinds. Table keys carry the `type(i)` the
code branches on. -/

inductive NumKind where
  | fin (q : Int)
  | nan
  | inf
  | ninf
deriving DecidableEq, Repr

inductive LKey where
  | knum (n : Int)
  | kstr (s : String)
  | kbool (b : Bool)
deriving DecidableEq, Repr

mutual

inductive LVal where
  | lnil
  | num (k : NumKind)
  | lbool (b : Bool)
  | str (validUtf8 : Bool)
  | table (hasMeta : Bool) (entries : LEntries)
  | userdata
  | thread
  | fn

/-- A table's `(key, value)` entries in iteration order. -/
inductive LEntries where
  | nil
  | cons (k : LKey) (v : LVal) (rest : LEntries)

end

mutual

/-- Structural equality on Luau values, modelling Lua `==` on the values the
storability check can meet (tables compare by reference in Lua; distinct
acyclic constructions are compared here by structure). -/
def lvalEqb : LVal → LVal → Bool
  | .lnil, .lnil => true
  | .num a, .num b => a == b
  | .lbool a, .lbool b => a == b
  | .str a, .str b => a == b
  | .table m1 e1, .table m2 e2 => m1 == m2 && entriesEqb e1 e2
  | .userdata, .userdata => true
  | .thread, .thread => true
  | .fn, .fn => true
  | _, _ => false

def entriesEqb : LEntries → LEntries → Bool
  | .nil, .nil => true
  | .cons k1 v1 t1, .cons k2 v2 t2 => k1 == k2 && lvalEqb v1 v2 && entriesEqb t1 t2
  | _, _ => false

end

/-- Lua `data == data`: false exactly for NaN (tables compare by reference,
so a value always equals itself there). -/
def luaSelfEq : LVal → Bool
  | .num .nan => false
  | _ => true

/-- The `type(i)` tag of a table key. -/
inductive KTag where
  | tstr
  | tnum
  | tbool
deriving DecidableEq, Repr

def keyTag : LKey → KTag
  | .knum _ => .tnum
  | .kstr _ => .tstr
  | .kbool _ => .tbool

/-- Lua `tostring(i)` for a table key, used only to build field names. -/
def keyToString : LKey → String
  | .knum n => toString n
  | .kstr s => s
  | .kbool b => toString b

mutual

/-- Embedding of `SaveUtil.assertStorable(data, fieldName)`
(src/unnamed/part_003:136-191). Raised Luau errors become `Except.error`
carrying the message; a normal return is `Except.ok ()`. -/
def assertStorable (data : LVal) (fieldName : Option String) : Except String Unit :=
  let fn := fieldName.getD "Data"
  if ¬ luaSelfEq data then
    .error ("NaN is not storable. Field: " ++ fn)
  else
    match data with
    | .userdata => .error ("Userdata is not storable in DataStores. Field: " ++ fn)
    | .thread => .error ("Threads are not storable in DataStores. Field: " ++ fn)
    | .fn => .error ("Functions are not storable in DataStores. Field: " ++ fn)
    | .str validUtf8 =>
        if ¬ validUtf8 then
          .error ("Strings with invalid UTF-8 codepoints are not storable in Datastores. Field: " ++ fn)
        else .ok ()
    | .table hasMeta entries =>
        if hasMeta then
          .error ("Metatables are not storable in DataStores. Field: " ++ fn)
        else
          assertEntries data fn none none entries
    | _ => .ok ()

/-- The `for i, v in data` loop of `assertStorable`, threading the loop
state `indexDataType` and `last`. The `last := i` assignment sits inside
`if type(i) == "number" and last then`, exactly as in the source, so `last`
(initially nil) is never written. One iteration is: first-index type check,
mixed-index check, sequential check, cyclic check `v == data`, recursive
`assertStorable(v, tostring(i))`. -/
def assertEntries (parent : LVal) (fn : String) (indexDataType : Option KTag)
    (last : Option Int) : LEntries → Except String Unit
  | .nil => .ok ()
  | .cons i v rest => do
      let idt ←
        if indexDataType.isNone then
          if ¬ (keyTag i = KTag.tstr ∨ keyTag i = KTag.tnum) then
            Except.error ("Table indexes must be strings or numbers to be storable. Field: " ++ fn)
          else pure (some (keyTag i))
        else pure indexDataType
      if (match idt with | some t => keyTag i != t | none => false) then
        Except.error ("Tables must only have one type of index to be storable. Field: " ++ fn)
      else do
        let last' ←
          match i, last with
          | .knum n, some l =>
              if n - l ≠ 1 then
                Except.error ("Tables with number indexes must be sequential. Field: " ++ fn)
              else pure (some n)
          | _, _ => pure last
        if lvalEqb v parent then
          Except.error ("Tables cannot be cyclic. Field: " ++ fn)
        else do
          assertStorable v (some (keyToString i))
          assertEntries parent fn idt last' rest

end

/-! ## Backoff-Retry Executor and the SaveUtil remote-call wrappers

`SaveUtil.updateAsync`, `getAsync` and `removeAsync`
(src/unnamed/part_003:236-312) wrap each remote call in
`Retry(RETRY.ATTEMPTS, RETRY.INITIAL_WAIT, attemptBody)`. The attempt
bodies are embedded from the source; the `Retry` module itself is required
by SaveUtil but its implementation is not under src/, so it is modelled
from the spec. -/

/-- Constant `RETRY.ATTEMPTS` (src/unnamed/part_003:113-116). -/
def RETRY_ATTEMPTS : Nat := 5

/-- Constant `RETRY.INITIAL_WAIT` (src/unnamed/part_003:113-116), in seconds. -/
def RETRY_INITIAL_WAIT : Nat := 1

/-- Outcome of one attempt of a remote operation: a returned value, a
retryable failure (a plain raised error: budget exhaustion or a store
failure), or a fatal failure (an aborted update attempt). -/
inductive AttemptOutcome (α : Type) where
  | ok (value : α)
  | retryable (msg : String)
  | fatal (msg : String)
deriving DecidableEq, Repr

/-- Whether an attempt outcome is a retryable failure. -/
def AttemptOutcome.isRetryable : AttemptOutcome α → Bool
  | .retryable _ => true
  | _ => false

/-- One attempt of a remote operation, as a state transformer over the
ambient world `σ`. -/
def Attempt (σ α : Type) := σ → σ × AttemptOutcome α

/-- Overall outcome of the retry executor: a success, `success=false` after
exhausting every attempt on retryable failures, or a propagated fatal
fault. -/
inductive RetryOutcome (α : Type) where
  | success (value : α)
  | exhausted
  | fault (msg : String)
deriving DecidableEq, Repr

/-- Trace of one `Retry` execution: the final world, the backoff waits
performed between consecutive attempts (in seconds), the number of attempts
made, and the overall outcome. -/
structure RetryTrace (σ α : Type) where
  final : σ
  waits : List Nat
  attemptsUsed : Nat
  outcome : RetryOutcome α

/-- Modelled from the spec: the `Retry` module required by SaveUtil
(src/unnamed/part_003:96) whose implementation is not under src/.
`Execute(operation, attempts, initialWaitSeconds)` runs the operation up to
`attempts` times, waiting `initialWaitSeconds * 2^attemptIndex` between
consecutive attempts; after exhausting attempts it reports `success=false`;
an aborted attempt's error propagates as a fatal fault with no further
retries. `i` is the index of the current attempt. -/
def retryGo (op : Attempt σ α) (initialWait : Nat) : Nat → Nat → σ → RetryTrace σ α
  | 0, _, s => ⟨s, [], 0, .exhausted⟩
  | n + 1, i, s =>
      let r := op s
      match r.2 with
      | .ok v => ⟨r.1, [], 1, .success v⟩
      | .fatal m => ⟨r.1, [], 1, .fault m⟩
      | .retryable _ =>
          if n = 0 then ⟨r.1, [], 1, .exhausted⟩
          else
            let t := retryGo op initialWait n (i + 1) r.1
            ⟨t.final, initialWait * 2 ^ i :: t.waits, t.attemptsUsed + 1, t.outcome⟩

/-- Modelled from the spec: `Execute(operation, attempts, initialWaitSeconds)`
of the Retry module. -/
def retryExecute (attempts initialWait : Nat) (op : Attempt σ α) (s : σ) :
    RetryTrace σ α :=
  retryGo op initialWait attempts 0 s

/-- The ambient state a SaveUtil remote call runs against: the per-kind
request budgets read by `getUpdateBudget` / `getGetBudget` / `getSetBudget`
(src/unnamed/part_003:193-210), the value stored at the key, and a count of
remote store invocations. -/
structure World (V : Type) where
  updateBudget : Nat
  getBudget : Nat
  setBudget : Nat
  stored : Option V
  storeCalls : Nat
deriving DecidableEq, Repr

/-- What the caller-supplied transform of `SaveUtil.updateAsync` did when
run on the store's current value: the value it returned, and the error it
passed to the `abortAttempt` callback if it invoked it. -/
structure TransformRun (V : Type) where
  value : Option V
  abortErr : Option String

/-- The attempt body of `SaveUtil.updateAsync`
(src/unnamed/part_003:241-270): assert the update budget is positive (a
raised error, hence a retryable failure, before the store is contacted),
call `UpdateAsync` whose inner function returns the prior value unchanged
when the transform aborted, then re-raise the abort error as a fatal
failure. -/
def updateAsyncAttempt (transform : Option V → TransformRun V) :
    Attempt (World V) (Option V) := fun w =>
  if w.updateBudget = 0 then
    (w, .retryable "Ran out of budget")
  else
    let tr := transform w.stored
    let newValue := if tr.abortErr.isSome then w.stored else tr.value
    let w' := { w with stored := newValue, storeCalls := w.storeCalls + 1 }
    match tr.abortErr with
    | some e => (w', .fatal e)
    | none => (w', .ok newValue)

/-- The attempt body of `SaveUtil.getAsync` (src/unnamed/part_003:282-294):
assert the get budget is positive, then call `GetAsync`. -/
def getAsyncAttempt (V : Type) : Attempt (World V) (Option V) := fun w =>
  if w.getBudget = 0 then
    (w, .retryable "Ran out of budget")
  else
    ({ w with storeCalls := w.storeCalls + 1 }, .ok w.stored)

/-- The attempt body of `SaveUtil.removeAsync`
(src/unnamed/part_003:305-309): assert the set budget is positive (remove
draws on the SetIncrementAsync budget, src/unnamed/part_003:199-204), then
call `RemoveAsync`. -/
def removeAsyncAttempt (V : Type) : Attempt (World V) (Option V) := fun w =>
  if w.setBudget = 0 then
    (w, .retryable "Ran out of budget")
  else
    ({ w with stored := none, storeCalls := w.storeCalls + 1 }, .ok w.stored)

/-- Embedding of `SaveUtil.updateAsync` (src/unnamed/part_003:236-273): retry the
budget-gated UpdateAsync attempt; a structured result `(success, value)` is
returned, while a fatal (aborted) attempt's error is re-raised
(`Except.error`). -/
def updateAsync (transform : Option V → TransformRun V) (w : World V) :
    World V × List Nat × Except String (Bool × Option V) :=
  let t := retryExecute RETRY_ATTEMPTS RETRY_INITIAL_WAIT (updateAsyncAttempt transform) w
  (t.final, t.waits,
    match t.outcome with
    | .success v => .ok (true, v)
    | .exhausted => .ok (false, none)
    | .fault m => .error m)

/-- Embedding of `SaveUtil.getAsync` (src/unnamed/part_003:281-297). -/
def getAsync (V : Type) (w : World V) :
    World V × List Nat × Except String (Bool × Option V) :=
  let t := retryExecute RETRY_ATTEMPTS RETRY_INITIAL_WAIT (getAsyncAttempt V) w
  (t.final, t.waits,
    match t.outcome with
    | .success v => .ok (true, v)
    | .exhausted => .ok (false, none)
    | .fault m => .error m)

/-- Embedding of `SaveUtil.removeAsync` (src/unnamed/part_003:304-312): returns only the
success flag. -/
def removeAsync (V : Type) (w : World V) : World V × List Nat × Except String Bool :=
  let t := retryExecute RETRY_ATTEMPTS RETRY_INITIAL_WAIT (removeAsyncAttempt V) w
  (t.final, t.waits,
    match t.outcome with
    | .success _ => .ok true
    | .exhausted => .ok false
    | .fault m => .error m)

/-! ## `SaveUtil.uuid` (src/unnamed/part_003:217-228)

`string.gsub` over the fixed template, replacing each `x` by
`string.format("%x", math.random(0, 0xf))` and each `y` by
`string.format("%x", math.random(8, 0xb))`. The random source is supplied
as `draw matchIndex lo hi`. -/

/-- Lua `string.format("%x", v)` for `0 ≤ v ≤ 15`: the digit characters for
`0`-`9`, then the lowercase letters `a`-`f`. -/
def hexChar (n : Nat) : Char :=
  if n < 10 then Char.ofNat (48 + n) else Char.ofNat (87 + n)

/-- The sixteen lowercase hexadecimal digits, in value order. -/
def hexDigits : List Char := (List.range 16).map hexChar

/-- The template `"xxxxxxxx-xxxx-4xxx-yxxx-xxxxxxxxxxxx"`. -/
def uuidTemplate : List Char := "xxxxxxxx-xxxx-4xxx-yxxx-xxxxxxxxxxxx".toList

/-- The `gsub` pass of `SaveUtil.uuid`: each `[xy]` match is replaced using
the next random draw; other characters are copied. -/
def uuidGo (draw : Nat → Nat → Nat → Nat) : List Char → Nat → List Char
  | [], _ => []
  | c :: rest, k =>
      if c = 'x' then hexChar (draw k 0 15) :: uuidGo draw rest (k + 1)
      else if c = 'y' then hexChar (draw k 8 11) :: uuidGo draw rest (k + 1)
      else c :: uuidGo draw rest k

/-- Embedding of `SaveUtil.uuid` (src/unnamed/part_003:217-228), with `math.random`
supplied as `draw`. -/
def uuid (draw : Nat → Nat → Nat → Nat) : List Char := uuidGo draw uuidTemplate 0

/-! ## Migration Pipeline (modelled from the spec)

`Types.luau:98-122` defines the `Migrations` type (`backwardsCompatible`
flag plus `migrate` transform; the current schema version is the pipeline's
length); the pipeline implementation itself is not under src/, so `Run` is
modelled from spec section 4.2. -/

/-- One entry of `Migrations` (src/target/roblox/Types.luau:117-122). -/
structure Migration (π : Type) where
  backwardsCompatible : Bool
  migrate : π → π

/-- The persisted record at a key, as the pipeline reads it:
`schemaVersion` plus the opaque payload. -/
structure StoredRecord (π : Type) where
  schemaVersion : Nat
  payload : π
deriving DecidableEq, Repr

/-- Structured pipeline failures (src/target/roblox/Types.luau:75-96). -/
inductive MigrationError where
  | schemaError
  | backwardsCompatibilityError
deriving DecidableEq, Repr

/-- Applies the migrations from the record's version upward, one entry per
version step. -/
def applyMigrations (migs : List (Migration π)) (fromVersion : Nat) (p : π) : π :=
  (migs.drop fromVersion).foldl (fun q m => m.migrate q) p

/-- Modelled from the spec: `Run(storedRecord)` of the Migration Pipeline
(spec 4.2); the implementation is not under src/. `migs` is this session's
pipeline. If the stored version exceeds the pipeline's length the record
was written by a newer session: it is rejected with
`BackwardsCompatibilityError` when any of the intervening migrations
(defined only by newer writers; their `backwardsCompatible` flags are
supplied as `futureFlags`, for versions `migs.length`, `migs.length + 1`, …)
is not backwards-compatible, and otherwise the payload is treated as
already current. Otherwise the remaining migrations run in order and the
result must pass the user-supplied `check` predicate, else `SchemaError`. -/
def runPipeline (migs : List (Migration π)) (futureFlags : List Bool)
    (check : π → Bool) (r : StoredRecord π) : Except MigrationError (StoredRecord π) :=
  if migs.length < r.schemaVersion then
    if (List.range (r.schemaVersion - migs.length)).any
        (fun k => ! futureFlags.getD k true) then
      .error .backwardsCompatibilityError
    else
      .ok r
  else
    let migrated := applyMigrations migs r.schemaVersion r.payload
    if check migrated then .ok ⟨migs.length, migrated⟩ else .error .schemaError

/-- Modelled from the spec: `Document.Open` on a key never previously
written, followed by `Read` (spec 4.2, 4.5): with no stored record and no
raw legacy value, version 0 is synthesized from the configured default and
the pipeline runs from there; `Read` then returns the resulting record. The
Document implementation is not under src/. -/
def openFreshThenRead (migs : List (Migration π)) (check : π → Bool)
    (defaultPayload : π) : Except MigrationError (StoredRecord π) :=
  runPipeline migs [] check ⟨0, defaultPayload⟩

/-! ## Session Lock protocol (modelled from the spec)

`Document.Open` (src/target/roblox/Document.d.ts:202-224) retries
`TryAcquire` up to 5 times when blocked by another session and surfaces
`SessionLockedError` once the retries are exhausted; the implementation is
not under src/, so the protocol is modelled from spec section 4.4. -/

/-- One opener's session-lock acquisition state: `TryAcquire` attempts
spent so far, and its structured result once resolved (`some true` for
success, `some false` for `SessionLockedError`). -/
structure OpenerState where
  attempts : Nat
  result : Option Bool
deriving DecidableEq, Repr

/-- Two concurrent `Open()` calls racing for one key's lock: the lock owner
recorded in the external store, and each opener's state. -/
structure RaceState where
  lockOwner : Option Nat
  oa : OpenerState
  ob : OpenerState
deriving DecidableEq, Repr

/-- Modelled from the spec: one `TryAcquire(key, me)` read-modify-write
(spec 4.4) by an unresolved opener: succeed and write the lock unless it is
held by a different owner; a blocked opener consumes one of its
`openAttempts` retries and resolves to `SessionLockedError` when they are
exhausted. A resolved opener takes no further steps. -/
def tryAcquireStep (openAttempts me : Nat) (lockOwner : Option Nat)
    (o : OpenerState) : Option Nat × OpenerState :=
  match o.result with
  | some _ => (lockOwner, o)
  | none =>
      match lockOwner with
      | none => (some me, { o with result := some true })
      | some owner =>
          if owner = me then (some me, { o with result := some true })
          else
            let att := o.attempts + 1
            if openAttempts ≤ att then (lockOwner, ⟨att, some false⟩)
            else (lockOwner, ⟨att, none⟩)

/-- One step of an interleaving: `false` lets opener A act, `true` lets
opener B act. -/
def raceStep (openAttempts idA idB : Nat) (s : RaceState) (mv : Bool) : RaceState :=
  if mv then
    let r := tryAcquireStep openAttempts idB s.lockOwner s.ob
    ⟨r.1, s.oa, r.2⟩
  else
    let r := tryAcquireStep openAttempts idA s.lockOwner s.oa
    ⟨r.1, r.2, s.ob⟩

/-- Runs an interleaving of the two concurrent `Open()` calls. -/
def raceRun (openAttempts idA idB : Nat) (moves : List Bool) (s : RaceState) :
    RaceState :=
  moves.foldl (raceStep openAttempts idA idB) s

/-- The initial race state: the key unlocked, neither opener resolved. -/
def raceStart : RaceState := ⟨none, ⟨0, none⟩, ⟨0, none⟩⟩

/-! ## Document Close (modelled from the spec)

`Document.Close` (src/target/roblox/Document.d.ts:58-69): "If session
locked, will save the document, remove the lock, and cancel autosaves
first. If this fails, the document will not be closed." The implementation
is not under src/, so the close path is modelled from the spec. -/

/-- The open-state of one session-locked Document. -/
structure DocState where
  isOpen : Bool
  holdsLock : Bool
  autosaveActive : Bool
deriving DecidableEq, Repr

/-- Modelled from the spec: `Close()` on an open, session-locked Document
(spec 4.4 Release, Document.d.ts:58-69). The final save / lock release
either succeeds (the document closes, the lock is cleared and the autosave
timer cancelled) or fails (a structured failure; the document's state is
left unchanged so the caller can retry). -/
def closeDoc (d : DocState) (releaseSucceeds : Bool) : DocState × Bool :=
  if releaseSucceeds then (⟨false, false, false⟩, true) else (d, false)

/-! ## Claim theorems -/

/-- C5: the claim says `assertStorable` faults on every value failing the
storability predicate, in particular on tables with non-sequential numeric
indices and on non-finite numbers. On the embedded source the
non-sequential check is dead code (`last` is only ever assigned inside
`if type(i) == "number" and last then`, and starts nil), so the
non-sequential table `{[1] = 1, [3] = 2}` is accepted; `data == data` also
accepts infinity. NaN is rejected as documented. (Reference-cyclic tables
have no counterpart in this tree model of values.) -/
theorem assertStorable_accepts_nonsequential_table :
    assertStorable
      (.table false (.cons (.knum 1) (.num (.fin 1))
        (.cons (.knum 3) (.num (.fin 2)) .nil))) none = Except.ok ()
    ∧ assertStorable (.num .inf) none = Except.ok ()
    ∧ assertStorable (.num .nan) none
        = Except.error "NaN is not storable. Field: Data" :=
  ⟨rfl, rfl, rfl⟩

/-- C9: if the final save / lock release of `Close()` fails, the Document's
state is unchanged — it remains logically open (so the caller can retry)
and the call reports a structured failure. -/
theorem close_failure_keeps_document_open (d : DocState) (h : d.isOpen = true) :
    (closeDoc d false).1 = d ∧ (closeDoc d false).1.isOpen = true
    ∧ (closeDoc d false).2 = false :=
  ⟨rfl, h, rfl⟩

/-- Witness for `close_failure_keeps_document_open` at a concrete open,
locked document. -/
theorem close_failure_keeps_document_open_witness :
    (closeDoc ⟨true, true, true⟩ false).1 = ⟨true, true, true⟩
    ∧ (closeDoc ⟨true, true, true⟩ false).1.isOpen = true
    ∧ (closeDoc ⟨true, true, true⟩ false).2 = false :=
  close_failure_keeps_document_open ⟨true, true, true⟩ rfl

/-- C7: a stored record whose version exceeds this session's pipeline
length fails with `BackwardsCompatibilityError` when any of the intervening
newer migrations is marked not backwards-compatible, and is otherwise
returned unchanged, treated as already current. -/
theorem future_version_backwards_compatibility (migs : List (Migration π))
    (futureFlags : List Bool) (check : π → Bool) (r : StoredRecord π)
    (h : migs.length < r.schemaVersion) :
    ((∃ k < r.schemaVersion - migs.length, futureFlags.getD k true = false) →
      runPipeline migs futureFlags check r = .error .backwardsCompatibilityError)
    ∧ ((∀ k < r.schemaVersion - migs.length, futureFlags.getD k true = true) →
      runPipeline migs futureFlags check r = .ok r) := by
  constructor
  · rintro ⟨k, hk, hflag⟩
    simp only [runPipeline, if_pos h]
    rw [if_pos]
    simp only [List.any_eq_true, List.mem_range]
    refine ⟨k, hk, ?_⟩
    simp only [List.getD, List.get?_eq_getElem?] at hflag
    simp [hflag]
  · intro hall
    simp only [runPipeline, if_pos h]
    rw [if_neg]
    simp only [List.any_eq_true, List.mem_range, not_exists]
    intro k
    rintro ⟨hk, hbad⟩
    have hh := hall k hk
    simp only [List.getD, List.get?_eq_getElem?] at hh
    simp [hh] at hbad

/-- Witness for `future_version_backwards_compatibility`: a version-1
record read by a session with an empty pipeline, once with the newer
migration marked incompatible and once with it compatible. -/
theorem future_version_backwards_compatibility_witness :
    runPipeline ([] : List (Migration Nat)) [false] (fun _ => true) ⟨1, 0⟩
      = .error .backwardsCompatibilityError
    ∧ runPipeline ([] : List (Migration Nat)) [true] (fun _ => true) ⟨1, 5⟩
      = .ok ⟨1, 5⟩ :=
  ⟨(future_version_backwards_compatibility [] [false] (fun _ => true) ⟨1, 0⟩
      (by decide)).1 ⟨0, by decide, rfl⟩,
   (future_version_backwards_compatibility [] [true] (fun _ => true) ⟨1, 5⟩
      (by decide)).2 (by decide)⟩

/-- C8: on a record already at the current schema version (equal to the
pipeline length) whose payload the check accepts, the pipeline returns the
same payload at the same version, so running it twice equals running it
once. -/
theorem pipeline_noop_at_current_version (migs : List (Migration π))
    (futureFlags : List Bool) (check : π → Bool) (r : StoredRecord π)
    (hv : r.schemaVersion = migs.length) (hc : check r.payload = true) :
    runPipeline migs futureFlags check r = .ok r
    ∧ (runPipeline migs futureFlags check r).bind
        (runPipeline migs futureFlags check)
      = runPipeline migs futureFlags check r := by
  obtain ⟨v, p⟩ := r
  simp only at hv hc
  subst hv
  have h1 : runPipeline migs futureFlags check ⟨migs.length, p⟩
      = .ok ⟨migs.length, p⟩ := by
    simp [runPipeline, applyMigrations, hc]
  exact ⟨h1, by simp [h1, Except.bind]⟩

/-- Witness for `pipeline_noop_at_current_version` on a version-0 record
with the empty pipeline. -/
theorem pipeline_noop_at_current_version_witness :
    runPipeline ([] : List (Migration Nat)) [] (fun _ => true) ⟨0, 7⟩ = .ok ⟨0, 7⟩
    ∧ (runPipeline ([] : List (Migration Nat)) [] (fun _ => true) ⟨0, 7⟩).bind
        (runPipeline [] [] (fun _ => true))
      = runPipeline ([] : List (Migration Nat)) [] (fun _ => true) ⟨0, 7⟩ :=
  pipeline_noop_at_current_version [] [] (fun _ => true) ⟨0, 7⟩ rfl rfl

/-- C6 counterexample: with pipeline `[v0 to v1 : n ↦ n + 1]` and default
`0`, opening a never-written key and reading yields payload `1` at version
`1`: the schema version equals the pipeline length, but the payload is not
the configured default. -/
theorem openFresh_payload_not_default :
    openFreshThenRead [⟨true, fun n => n + 1⟩] (fun _ => true) (0 : Nat)
      = .ok ⟨1, 1⟩ ∧ (1 : Nat) ≠ 0 :=
  ⟨rfl, by decide⟩

/-- C6 amended: opening a never-written key and reading returns the
configured default payload with the whole migration pipeline applied to it
(the default itself exactly when the migrations fix it), at schema version
equal to the pipeline length. -/
theorem openFresh_returns_migrated_default (migs : List (Migration π))
    (check : π → Bool) (defaultPayload : π)
    (hc : check (applyMigrations migs 0 defaultPayload) = true) :
    openFreshThenRead migs check defaultPayload
      = .ok ⟨migs.length, applyMigrations migs 0 defaultPayload⟩ := by
  simp [openFreshThenRead, runPipeline, hc]

/-- Witness for `openFresh_returns_migrated_default` with one increment
migration over default `0`. -/
theorem openFresh_returns_migrated_default_witness :
    openFreshThenRead [⟨true, fun n => n + 1⟩, ⟨false, fun n => n * 2⟩]
      (fun _ => true) (0 : Nat) = .ok ⟨2, 2⟩ :=
  openFresh_returns_migrated_default
    [⟨true, fun n => n + 1⟩, ⟨false, fun n => n * 2⟩] (fun _ => true) 0 rfl

/-- If one attempt fails retryably and leaves the world unchanged, the
five-attempt executor spends every attempt on it, backing off 1, 2, 4 and 8
seconds, and ends exhausted with the world still unchanged. -/
theorem retryExecute_const_retryable (op : Attempt σ α) (s : σ) (m : String)
    (h : op s = (s, .retryable m)) :
    retryExecute RETRY_ATTEMPTS RETRY_INITIAL_WAIT op s
      = ⟨s, [1, 2, 4, 8], 5, .exhausted⟩ := by
  simp [retryExecute, RETRY_ATTEMPTS, RETRY_INITIAL_WAIT, retryGo, h]

/-- C2: with the operation-kind budget exhausted, each SaveUtil attempt
body (update / get / remove) fails at once, leaving the world — in
particular the store-call count — untouched, so the remote store is never
contacted; inside the executor each such failure consumes one attempt, so a
permanently exhausted budget spends all five attempts and yields
`success=false`. -/
theorem budget_exhausted_fails_without_store_call (V : Type)
    (transform : Option V → TransformRun V) (w : World V)
    (hu : w.updateBudget = 0) (hg : w.getBudget = 0) (hs : w.setBudget = 0) :
    updateAsyncAttempt transform w = (w, .retryable "Ran out of budget")
    ∧ getAsyncAttempt V w = (w, .retryable "Ran out of budget")
    ∧ removeAsyncAttempt V w = (w, .retryable "Ran out of budget")
    ∧ updateAsync transform w = (w, [1, 2, 4, 8], .ok (false, none))
    ∧ getAsync V w = (w, [1, 2, 4, 8], .ok (false, none))
    ∧ removeAsync V w = (w, [1, 2, 4, 8], .ok false)
    ∧ (retryExecute RETRY_ATTEMPTS RETRY_INITIAL_WAIT
        (updateAsyncAttempt transform) w).attemptsUsed = RETRY_ATTEMPTS
    ∧ (retryExecute RETRY_ATTEMPTS RETRY_INITIAL_WAIT
        (getAsyncAttempt V) w).attemptsUsed = RETRY_ATTEMPTS
    ∧ (retryExecute RETRY_ATTEMPTS RETRY_INITIAL_WAIT
        (removeAsyncAttempt V) w).attemptsUsed = RETRY_ATTEMPTS := by
  have h1 : updateAsyncAttempt transform w = (w, .retryable "Ran out of budget") := by
    simp [updateAsyncAttempt, hu]
  have h2 : getAsyncAttempt V w = (w, .retryable "Ran out of budget") := by
    simp [getAsyncAttempt, hg]
  have h3 : removeAsyncAttempt V w = (w, .retryable "Ran out of budget") := by
    simp [removeAsyncAttempt, hs]
  have e1 := retryExecute_const_retryable _ _ _ h1
  have e2 := retryExecute_const_retryable _ _ _ h2
  have e3 := retryExecute_const_retryable _ _ _ h3
  refine ⟨h1, h2, h3, ?_, ?_, ?_, ?_, ?_, ?_⟩ <;>
    (simp [updateAsync, getAsync, removeAsync, e1, e2, e3]; try rfl)

/-- Witness for `budget_exhausted_fails_without_store_call` on a world with
every budget at zero. -/
theorem budget_exhausted_fails_without_store_call_witness :
    updateAsyncAttempt (fun s => ⟨s, none⟩) (⟨0, 0, 0, none, 0⟩ : World Nat)
      = (⟨0, 0, 0, none, 0⟩, .retryable "Ran out of budget")
    ∧ updateAsync (fun s => ⟨s, none⟩) (⟨0, 0, 0, none, 0⟩ : World Nat)
      = (⟨0, 0, 0, none, 0⟩, [1, 2, 4, 8], .ok (false, none)) := by
  have h := budget_exhausted_fails_without_store_call Nat (fun s => ⟨s, none⟩)
    ⟨0, 0, 0, none, 0⟩ rfl rfl rfl
  exact ⟨h.1, h.2.2.2.1⟩

/-- The executor never makes more attempts than it was given. -/
theorem retryGo_attempts_le (op : Attempt σ α) (iw : Nat) :
    ∀ n i s, (retryGo op iw n i s).attemptsUsed ≤ n := by
  intro n
  induction n with
  | zero => intro i s; simp [retryGo]
  | succ k ih =>
      intro i s
      simp only [retryGo]
      cases hr : (op s).2 with
      | ok v => simp
      | fatal m => simp
      | retryable m =>
          by_cases hk : k = 0
          · simp [hk]
          · simp only [if_neg hk]
            exact Nat.succ_le_succ (ih (i + 1) (op s).1)

/-- The wait recorded between attempt `i + j` and the next one is
`initialWait * 2 ^ (i + j)`: the wait list follows the pure
exponential-backoff pattern from the starting attempt index. -/
theorem retryGo_waits_pattern (op : Attempt σ α) (iw : Nat) :
    ∀ n i s, (retryGo op iw n i s).waits
      = (List.range (retryGo op iw n i s).waits.length).map
          (fun j => iw * 2 ^ (i + j)) := by
  intro n
  induction n with
  | zero => intro i s; simp [retryGo]
  | succ k ih =>
      intro i s
      simp only [retryGo]
      cases hr : (op s).2 with
      | ok v => simp
      | fatal m => simp
      | retryable m =>
          by_cases hk : k = 0
          · simp [hk]
          · simp only [if_neg hk, List.length_cons, List.range_succ_eq_map,
              List.map_cons, List.map_map, Nat.add_zero]
            have hcomp : ((fun j => iw * 2 ^ (i + j)) ∘ Nat.succ)
                = fun j => iw * 2 ^ (i + 1 + j) := by
              funext j
              have hj : i + Nat.succ j = i + 1 + j := by omega
              simp [Function.comp, hj]
            rw [hcomp, ← ih (i + 1) (op s).1]

/-- When every attempt fails retryably, the executor ends exhausted having
used every one of its attempts. -/
theorem retryGo_all_retryable (op : Attempt σ α) (iw : Nat)
    (h : ∀ t, ((op t).2).isRetryable = true) :
    ∀ n i s, (retryGo op iw n i s).outcome = RetryOutcome.exhausted
      ∧ (retryGo op iw n i s).attemptsUsed = n := by
  intro n
  induction n with
  | zero => intro i s; simp [retryGo]
  | succ k ih =>
      intro i s
      have hs := h s
      cases hr : (op s).2 with
      | ok v => rw [hr] at hs; simp [AttemptOutcome.isRetryable] at hs
      | fatal m => rw [hr] at hs; simp [AttemptOutcome.isRetryable] at hs
      | retryable m =>
          simp only [retryGo]
          rw [hr]
          by_cases hk : k = 0
          · simp [hk]
          · simp only [if_neg hk]
            refine ⟨(ih (i + 1) (op s).1).1, ?_⟩
            rw [(ih (i + 1) (op s).1).2]

/-- C3: with the source's constants (`RETRY.ATTEMPTS = 5`,
`RETRY.INITIAL_WAIT = 1`) the executor makes at most five attempts, the
wait between attempt `j` and attempt `j + 1` is `initialWait * 2 ^ j`
seconds, and once every attempt has failed it reports `success=false`,
having used all five attempts. -/
theorem retry_executor_contract (op : Attempt σ α) (s : σ) :
    (retryExecute RETRY_ATTEMPTS RETRY_INITIAL_WAIT op s).attemptsUsed ≤ 5
    ∧ (retryExecute RETRY_ATTEMPTS RETRY_INITIAL_WAIT op s).waits
      = (List.range
          (retryExecute RETRY_ATTEMPTS RETRY_INITIAL_WAIT op s).waits.length).map
          (fun j => RETRY_INITIAL_WAIT * 2 ^ j)
    ∧ ((∀ t, ((op t).2).isRetryable = true) →
        (retryExecute RETRY_ATTEMPTS RETRY_INITIAL_WAIT op s).outcome
            = RetryOutcome.exhausted
        ∧ (retryExecute RETRY_ATTEMPTS RETRY_INITIAL_WAIT op s).attemptsUsed = 5) := by
  refine ⟨retryGo_attempts_le op RETRY_INITIAL_WAIT RETRY_ATTEMPTS 0 s, ?_, ?_⟩
  · have h := retryGo_waits_pattern op RETRY_INITIAL_WAIT RETRY_ATTEMPTS 0 s
    simpa [retryExecute] using h
  · intro hall
    exact retryGo_all_retryable op RETRY_INITIAL_WAIT hall RETRY_ATTEMPTS 0 s

/-- Witness for `retry_executor_contract` at the constantly-failing
operation over `Unit`; the inner all-attempts-fail hypothesis is discharged
definitionally. -/
theorem retry_executor_contract_witness :
    (retryExecute RETRY_ATTEMPTS RETRY_INITIAL_WAIT
        (fun s : Unit => (s, (AttemptOutcome.retryable "e" : AttemptOutcome Unit))) ()).attemptsUsed ≤ 5
    ∧ (retryExecute RETRY_ATTEMPTS RETRY_INITIAL_WAIT
        (fun s : Unit => (s, (AttemptOutcome.retryable "e" : AttemptOutcome Unit))) ()).outcome
      = RetryOutcome.exhausted
    ∧ (retryExecute RETRY_ATTEMPTS RETRY_INITIAL_WAIT
        (fun s : Unit => (s, (AttemptOutcome.retryable "e" : AttemptOutcome Unit))) ()).attemptsUsed = 5 := by
  have h := retry_executor_contract
    (fun s : Unit => (s, (AttemptOutcome.retryable "e" : AttemptOutcome Unit))) ()
  exact ⟨h.1, (h.2.2 (fun _ => rfl)).1, (h.2.2 (fun _ => rfl)).2⟩

/-- C4: an update attempt whose transform invokes the abort callback writes
the store's prior value back unchanged, fails that attempt fatally, and the
executor makes no further attempts: the abort error reaches the caller as a
raised fault (`Except.error`), not as a structured `success=false` result. -/
theorem update_abort_fatal_no_retry (V : Type)
    (transform : Option V → TransformRun V) (w : World V) (e : String)
    (hb : w.updateBudget ≠ 0) (ha : (transform w.stored).abortErr = some e) :
    updateAsyncAttempt transform w
      = ({ w with storeCalls := w.storeCalls + 1 }, .fatal e)
    ∧ (updateAsync transform w).1.stored = w.stored
    ∧ (updateAsync transform w).1.storeCalls = w.storeCalls + 1
    ∧ (updateAsync transform w).2.2 = .error e
    ∧ (retryExecute RETRY_ATTEMPTS RETRY_INITIAL_WAIT
        (updateAsyncAttempt transform) w).attemptsUsed = 1 := by
  have h1 : updateAsyncAttempt transform w
      = ({ w with storeCalls := w.storeCalls + 1 }, .fatal e) := by
    simp [updateAsyncAttempt, hb, ha]
  have h2 : retryExecute RETRY_ATTEMPTS RETRY_INITIAL_WAIT
      (updateAsyncAttempt transform) w
      = ⟨{ w with storeCalls := w.storeCalls + 1 }, [], 1, .fault e⟩ := by
    simp [retryExecute, RETRY_ATTEMPTS, retryGo, h1]
  refine ⟨h1, ?_, ?_, ?_, ?_⟩ <;> simp [updateAsync, h2]

/-- Witness for `update_abort_fatal_no_retry` at a transform that always
aborts with message `boom`. -/
theorem update_abort_fatal_no_retry_witness :
    updateAsyncAttempt (fun _ => ⟨some 7, some "boom"⟩)
        (⟨1, 1, 1, some 3, 0⟩ : World Nat)
      = (⟨1, 1, 1, some 3, 1⟩, .fatal "boom")
    ∧ (updateAsync (fun _ => ⟨some 7, some "boom"⟩)
        (⟨1, 1, 1, some 3, 0⟩ : World Nat)).2.2 = .error "boom" := by
  have h := update_abort_fatal_no_retry Nat (fun _ => ⟨some 7, some "boom"⟩)
    ⟨1, 1, 1, some 3, 0⟩ "boom" (by decide) rfl
  exact ⟨h.1, h.2.2.2.1⟩

/-- Hex digits produced from draws of at most 15 are among the sixteen
lowercase hexadecimal characters. -/
theorem hexChar_mem_hexDigits : ∀ n, n ≤ 15 → hexChar n ∈ hexDigits := by decide

/-- Draws in the variant range `[8, 11]` produce exactly the four variant
characters. -/
theorem hexChar_mem_variant :
    ∀ n, n ≤ 11 → 8 ≤ n → hexChar n ∈ (['8', '9', 'a', 'b'] : List Char) := by
  decide

/-- C10: for every sequence of in-range random draws, `uuid` produces a
36-character string shaped `xxxxxxxx-xxxx-4xxx-yxxx-xxxxxxxxxxxx`: dashes
at (1-indexed) positions 9, 14, 19 and 24, the literal `4` at position 15,
a variant character among `8`, `9`, `a`, `b` at position 20, and a
lowercase hexadecimal digit at every other position. -/
theorem uuid_format (draw : Nat → Nat → Nat → Nat)
    (hx : ∀ k, draw k 0 15 ≤ 15)
    (hy : ∀ k, 8 ≤ draw k 8 11 ∧ draw k 8 11 ≤ 11) :
    (uuid draw).length = 36
    ∧ (uuid draw).getD 8 ' ' = '-'
    ∧ (uuid draw).getD 13 ' ' = '-'
    ∧ (uuid draw).getD 18 ' ' = '-'
    ∧ (uuid draw).getD 23 ' ' = '-'
    ∧ (uuid draw).getD 14 ' ' = '4'
    ∧ (uuid draw).getD 19 ' ' ∈ (['8', '9', 'a', 'b'] : List Char)
    ∧ ∀ j, j < 36 → j ∉ ([8, 13, 18, 23] : List Nat) →
        (uuid draw).getD j ' ' ∈ hexDigits := by
  refine ⟨rfl, rfl, rfl, rfl, rfl, rfl, ?_, ?_⟩
  · exact hexChar_mem_variant _ (hy 15).2 (hy 15).1
  · intro j hj hnd
    interval_cases j <;>
      first
        | exact (hnd (by decide)).elim
        | exact hexChar_mem_hexDigits _ (hx _)
        | exact hexChar_mem_hexDigits _ (Nat.le_trans (hy _).2 (by decide))
        | exact (by decide : ('4' : Char) ∈ hexDigits)

/-- Witness for `uuid_format` at the draw source that always returns the
lower bound of its range. -/
theorem uuid_format_witness :
    (uuid (fun _ lo _ => lo)).length = 36
    ∧ (uuid (fun _ lo _ => lo)).getD 14 ' ' = '4'
    ∧ (uuid (fun _ lo _ => lo)).getD 19 ' '
      ∈ (['8', '9', 'a', 'b'] : List Char) := by
  have h := uuid_format (fun _ lo _ => lo) (fun _ => (by decide : (0 : Nat) ≤ 15))
    (fun _ => ⟨Nat.le_refl 8, (by decide : (8 : Nat) ≤ 11)⟩)
  exact ⟨h.1, h.2.2.2.2.2.1, h.2.2.2.2.2.2.1⟩

/-- A blocked opener under the five-retry budget: still pending with
retries left, or resolved to `SessionLockedError` with all five spent. -/
def loserInv (o : OpenerState) : Prop :=
  (o.result = none ∧ o.attempts < 5) ∨ (o.result = some false ∧ o.attempts = 5)

/-- Invariant of the two-opener race: either nobody has acquired the lock
yet and both openers are untouched, or one opener holds the lock and
succeeded while the other is blocked. -/
def raceInv (idA idB : Nat) (s : RaceState) : Prop :=
  (s.lockOwner = none ∧ s.oa = ⟨0, none⟩ ∧ s.ob = ⟨0, none⟩)
  ∨ (s.lockOwner = some idA ∧ s.oa.result = some true ∧ loserInv s.ob)
  ∨ (s.lockOwner = some idB ∧ s.ob.result = some true ∧ loserInv s.oa)

/-- A resolved opener's `TryAcquire` step is a no-op. -/
theorem tryAcquireStep_resolved (n me : Nat) (l : Option Nat) (o : OpenerState)
    (b : Bool) (h : o.result = some b) :
    tryAcquireStep n me l o = (l, o) := by
  simp [tryAcquireStep, h]

/-- An unresolved opener acquires an unheld lock at once. -/
theorem tryAcquireStep_free (n me : Nat) (o : OpenerState) (h : o.result = none) :
    tryAcquireStep n me none o = (some me, { o with result := some true }) := by
  simp [tryAcquireStep, h]

/-- An unresolved opener blocked by a different owner spends one retry and
resolves to `SessionLockedError` exactly when the budget is exhausted. -/
theorem tryAcquireStep_blocked (n me owner : Nat) (o : OpenerState)
    (h : o.result = none) (ho : owner ≠ me) :
    tryAcquireStep n me (some owner) o
      = (some owner,
          if n ≤ o.attempts + 1 then ⟨o.attempts + 1, some false⟩
          else ⟨o.attempts + 1, none⟩) := by
  by_cases hn : n ≤ o.attempts + 1 <;> simp [tryAcquireStep, h, ho, hn]

/-- One interleaving step preserves the race invariant. -/
theorem raceStep_preserves_inv (idA idB : Nat) (hne : idA ≠ idB)
    (s : RaceState) (mv : Bool) (h : raceInv idA idB s) :
    raceInv idA idB (raceStep 5 idA idB s mv) := by
  rcases h with ⟨h1, h2, h3⟩ | ⟨h1, h2, h3⟩ | ⟨h1, h2, h3⟩
  · cases mv
    · have e : raceStep 5 idA idB s false
          = ⟨some idA, { s.oa with result := some true }, s.ob⟩ := by
        simp [raceStep, h1, tryAcquireStep_free 5 idA s.oa (by simp [h2])]
      rw [e]
      exact Or.inr (Or.inl ⟨rfl, rfl, Or.inl (by simp [h3])⟩)
    · have e : raceStep 5 idA idB s true
          = ⟨some idB, s.oa, { s.ob with result := some true }⟩ := by
        simp [raceStep, h1, tryAcquireStep_free 5 idB s.ob (by simp [h3])]
      rw [e]
      exact Or.inr (Or.inr ⟨rfl, rfl, Or.inl (by simp [h2])⟩)
  · cases mv
    · have e : raceStep 5 idA idB s false = ⟨s.lockOwner, s.oa, s.ob⟩ := by
        simp [raceStep, tryAcquireStep_resolved 5 idA s.lockOwner s.oa true h2]
      rw [e]
      exact Or.inr (Or.inl ⟨h1, h2, h3⟩)
    · rcases h3 with ⟨hr, hatt⟩ | ⟨hr, hatt⟩
      · by_cases h5 : 5 ≤ s.ob.attempts + 1
        · have e : raceStep 5 idA idB s true
              = ⟨some idA, s.oa, ⟨s.ob.attempts + 1, some false⟩⟩ := by
            simp [raceStep, h1, tryAcquireStep_blocked 5 idB idA s.ob hr hne, h5]
          rw [e]
          exact Or.inr (Or.inl ⟨rfl, h2, Or.inr ⟨rfl,
            show s.ob.attempts + 1 = 5 by omega⟩⟩)
        · have e : raceStep 5 idA idB s true
              = ⟨some idA, s.oa, ⟨s.ob.attempts + 1, none⟩⟩ := by
            simp [raceStep, h1, tryAcquireStep_blocked 5 idB idA s.ob hr hne, h5]
          rw [e]
          exact Or.inr (Or.inl ⟨rfl, h2, Or.inl ⟨rfl,
            show s.ob.attempts + 1 < 5 by omega⟩⟩)
      · have e : raceStep 5 idA idB s true = ⟨s.lockOwner, s.oa, s.ob⟩ := by
          simp [raceStep, tryAcquireStep_resolved 5 idB s.lockOwner s.ob false hr]
        rw [e]
        exact Or.inr (Or.inl ⟨h1, h2, Or.inr ⟨hr, hatt⟩⟩)
  · cases mv
    · rcases h3 with ⟨hr, hatt⟩ | ⟨hr, hatt⟩
      · by_cases h5 : 5 ≤ s.oa.attempts + 1
        · have e : raceStep 5 idA idB s false
              = ⟨some idB, ⟨s.oa.attempts + 1, some false⟩, s.ob⟩ := by
            simp [raceStep, h1,
              tryAcquireStep_blocked 5 idA idB s.oa hr (Ne.symm hne), h5]
          rw [e]
          exact Or.inr (Or.inr ⟨rfl, h2, Or.inr ⟨rfl,
            show s.oa.attempts + 1 = 5 by omega⟩⟩)
        · have e : raceStep 5 idA idB s false
              = ⟨some idB, ⟨s.oa.attempts + 1, none⟩, s.ob⟩ := by
            simp [raceStep, h1,
              tryAcquireStep_blocked 5 idA idB s.oa hr (Ne.symm hne), h5]
          rw [e]
          exact Or.inr (Or.inr ⟨rfl, h2, Or.inl ⟨rfl,
            show s.oa.attempts + 1 < 5 by omega⟩⟩)
      · have e : raceStep 5 idA idB s false = ⟨s.lockOwner, s.oa, s.ob⟩ := by
          simp [raceStep, tryAcquireStep_resolved 5 idA s.lockOwner s.oa false hr]
        rw [e]
        exact Or.inr (Or.inr ⟨h1, h2, Or.inr ⟨hr, hatt⟩⟩)
    · have e : raceStep 5 idA idB s true = ⟨s.lockOwner, s.oa, s.ob⟩ := by
        simp [raceStep, tryAcquireStep_resolved 5 idB s.lockOwner s.ob true h2]
      rw [e]
      exact Or.inr (Or.inr ⟨h1, h2, h3⟩)

/-- Every interleaving preserves the race invariant. -/
theorem raceRun_inv (idA idB : Nat) (hne : idA ≠ idB) (moves : List Bool) :
    ∀ s, raceInv idA idB s → raceInv idA idB (raceRun 5 idA idB moves s) := by
  induction moves with
  | nil => intro s h; simpa [raceRun] using h
  | cons mv rest ih =>
      intro s h
      have h1 := raceStep_preserves_inv idA idB hne s mv h
      simpa [raceRun, List.foldl_cons] using ih _ h1

/-- C1: two concurrent `Open()` calls from different owners race for an
unlocked key; under every interleaving in which both calls have resolved,
exactly one succeeded while the other resolved to `SessionLockedError`
with its five `TryAcquire` retries exhausted. -/
theorem open_race_exactly_one_succeeds (idA idB : Nat) (hne : idA ≠ idB)
    (moves : List Bool)
    (ha : (raceRun 5 idA idB moves raceStart).oa.result ≠ none)
    (hb : (raceRun 5 idA idB moves raceStart).ob.result ≠ none) :
    ((raceRun 5 idA idB moves raceStart).oa.result = some true
      ∧ (raceRun 5 idA idB moves raceStart).ob.result = some false
      ∧ (raceRun 5 idA idB moves raceStart).ob.attempts = 5)
    ∨ ((raceRun 5 idA idB moves raceStart).ob.result = some true
      ∧ (raceRun 5 idA idB moves raceStart).oa.result = some false
      ∧ (raceRun 5 idA idB moves raceStart).oa.attempts = 5) := by
  have hstart : raceInv idA idB raceStart := Or.inl ⟨rfl, rfl, rfl⟩
  have hinv := raceRun_inv idA idB hne moves raceStart hstart
  rcases hinv with ⟨h1, h2, h3⟩ | ⟨h1, h2, h3⟩ | ⟨h1, h2, h3⟩
  · exact absurd (by simp [h2]) ha
  · rcases h3 with ⟨hr, hlt⟩ | ⟨hr, hatt⟩
    · exact absurd hr hb
    · exact Or.inl ⟨h2, hr, hatt⟩
  · rcases h3 with ⟨hr, hlt⟩ | ⟨hr, hatt⟩
    · exact absurd hr ha
    · exact Or.inr ⟨h2, hr, hatt⟩

/-- Witness for `open_race_exactly_one_succeeds`: owners 0 and 1, opener A
moves first and acquires, then B makes its five blocked attempts. -/
theorem open_race_exactly_one_succeeds_witness :
    ((raceRun 5 0 1 [false, true, true, true, true, true] raceStart).oa.result
        = some true
      ∧ (raceRun 5 0 1 [false, true, true, true, true, true] raceStart).ob.result
        = some false
      ∧ (raceRun 5 0 1 [false, true, true, true, true, true] raceStart).ob.attempts
        = 5)
    ∨ ((raceRun 5 0 1 [false, true, true, true, true, true] raceStart).ob.result
        = some true
      ∧ (raceRun 5 0 1 [false, true, true, true, true, true] raceStart).oa.result
        = some false
      ∧ (raceRun 5 0 1 [false, true, true, true, true, true] raceStart).oa.attempts
        = 5) :=
  open_race_exactly_one_succeeds 0 1 (by decide)
    [false, true, true, true, true, true] (by decide) (by decide)

end DocumentService
